import Mathlib

/-!
Shallow embedding of the PersonaOS nutrition-tracking app core
(src/App.tsx, src/types.ts, src/unnamed/part_000 — a near-duplicate App
variant, src/unnamed/part_002 — the Gemini estimation service wrapper).

JavaScript numbers are modelled as exact rationals (ℚ); NaN and floating
point rounding are outside the model.  External effects (the camera, the
Gemini call, `Math.random()` id generation, `Date.now()` timestamps) are
passed in as explicit arguments of the step functions.  Haptic/alert
failure signalling is modelled as a Bool produced alongside the new state.
-/

/-- `MealType` enum from src/types.ts. -/
inductive MealType where
  | breakfast
  | lunch
  | dinner
  | snack
deriving DecidableEq, Repr

/-- `FoodEntry` interface from src/types.ts.  Numeric fields are ℚ. -/
structure FoodEntry where
  id : String
  name : String
  calories : ℚ
  protein : ℚ
  carbs : ℚ
  fat : ℚ
  timestamp : ℚ
  mealType : MealType
deriving DecidableEq, Repr

/-- `UserStats` interface from src/types.ts (the App variants use the
`waterIntakeOz` field name). -/
structure UserStats where
  dailyCalorieGoal : ℚ
  dailyStepGoal : ℚ
  currentSteps : ℚ
  waterIntakeOz : ℚ
deriving DecidableEq, Repr

/-- The `Partial<FoodEntry>` pending draft held in the `pendingFood` React
state: every field the capture flow sets may be absent (`undefined`). -/
structure PendingFood where
  name : Option String
  calories : Option ℚ
  protein : Option ℚ
  carbs : Option ℚ
  fat : Option ℚ
deriving DecidableEq, Repr

/-- The `activeTab` state: `'health' | 'food' | 'stats'`. -/
inductive Tab where
  | health
  | food
  | stats
deriving DecidableEq, Repr

/-- The React component state of `App` (src/App.tsx lines 66-72 and the
identical block of src/unnamed/part_000): active tab, food log, user stats,
camera flags, the pending draft, and the water-modal flag. -/
structure AppState where
  activeTab : Tab
  foods : List FoodEntry
  stats : UserStats
  isScanning : Bool
  isProcessing : Bool
  pendingFood : Option PendingFood
  isWaterModalOpen : Bool
deriving DecidableEq, Repr

/-- `WATER_GOAL = 80` (oz), src/App.tsx line 31. -/
def WATER_GOAL : ℚ := 80

/-- JavaScript `x || dflt` on our string domain: `undefined` and the empty
string are falsy. -/
def jsOrStr (v : Option String) (dflt : String) : String :=
  match v with
  | none => dflt
  | some x => if x = "" then dflt else x

/-- JavaScript `x || dflt` on our numeric domain: `undefined` and `0` are
falsy (NaN is outside the model). -/
def jsOrNum (v : Option ℚ) (dflt : ℚ) : ℚ :=
  match v with
  | none => dflt
  | some x => if x = 0 then dflt else x

/-- `totalCalories` over a list of entries:
`foods.reduce((acc, f) => acc + f.calories, 0)` (src/App.tsx line 77). -/
def totalCaloriesList (foods : List FoodEntry) : ℚ :=
  foods.foldl (fun acc f => acc + f.calories) 0

/-- `totalCalories`, the derived value read from the component state. -/
def totalCalories (s : AppState) : ℚ :=
  totalCaloriesList s.foods

/-- `calorieProgress = Math.min(totalCalories / stats.dailyCalorieGoal, 1)`
(src/App.tsx line 78). -/
def calorieProgress (s : AppState) : ℚ :=
  min (totalCalories s / s.stats.dailyCalorieGoal) 1

/-- `waterProgress = Math.min(stats.waterIntakeOz / WATER_GOAL, 1)`
(src/App.tsx line 79). -/
def waterProgress (s : AppState) : ℚ :=
  min (s.stats.waterIntakeOz / WATER_GOAL) 1

/-- `getMealTotal` (src/App.tsx line 80): calorie subtotal of one meal type. -/
def getMealTotal (s : AppState) (type : MealType) : ℚ :=
  (s.foods.filter (fun f => f.mealType = type)).foldl (fun acc f => acc + f.calories) 0

/-- `finalizeEntry(selectedMealType)` (src/App.tsx lines 130-146, identical
in src/unnamed/part_000 lines 141-157).  The `Math.random().toString(36).substring(2, 11)`
id and the `Date.now()` timestamp are external effects passed in as `newId`
and `now`.  Guard: `if (!pendingFood) return;` is the `none` branch. -/
def finalizeEntry (s : AppState) (selectedMealType : MealType)
    (newId : String) (now : ℚ) : AppState :=
  match s.pendingFood with
  | none => s
  | some d =>
      let newEntry : FoodEntry :=
        { id := newId
          name := jsOrStr d.name "Unknown Item"
          calories := jsOrNum d.calories 0
          protein := jsOrNum d.protein 0
          carbs := jsOrNum d.carbs 0
          fat := jsOrNum d.fat 0
          timestamp := now
          mealType := selectedMealType }
      { s with
          foods := newEntry :: s.foods
          pendingFood := none
          activeTab := Tab.food }

/-- `logWater(oz)` (src/App.tsx lines 148-157): adds the preset amount to
the hydration counter.  The threshold haptic has no state effect. -/
def logWater (s : AppState) (oz : ℚ) : AppState :=
  { s with stats := { s.stats with waterIntakeOz := s.stats.waterIntakeOz + oz } }

/-- The discard / cancel action of the pending-draft sheet
(src/App.tsx lines 396-401, src/unnamed/part_000 line 340):
`setPendingFood(null)` and nothing else. -/
def discardDraft (s : AppState) : AppState :=
  { s with pendingFood := none }

/-- The object `JSON.parse` yields from the estimation response
(src/unnamed/part_002): each schema field may be absent, as in the
`JSON.parse('{}')` produced by an empty response text. -/
structure ParsedFood where
  name : Option String
  calories : Option ℚ
  protein : Option ℚ
  carbs : Option ℚ
  fat : Option ℚ
deriving DecidableEq, Repr

/-- The `{}` object parsed from an empty response text. -/
def emptyParsed : ParsedFood :=
  { name := none, calories := none, protein := none, carbs := none, fat := none }

/-- `analyzeFoodImage` (src/unnamed/part_002 lines 17-45) at the level of
its observable outcome: an exception in the try block returns `null`
(`none`); a successful call parses `response.text || '{}'`, so an empty
text yields the `{}` object.  `.error e` is the caught exception, `.ok t`
the response with `t = none` standing for an empty/absent `response.text`. -/
def analyzeFoodImage (outcome : Except Unit (Option ParsedFood)) : Option ParsedFood :=
  match outcome with
  | Except.error _ => none
  | Except.ok t => some (t.getD emptyParsed)

/-- `captureAndAnalyze` in src/App.tsx (lines 102-128), after the
estimation call returned `result`: `if (result)` populates the draft and
stops the camera; the else branch fires `haptic.warning()` only.  The
returned Bool is `true` when a failure was signalled to the user.  The DOM
ref guard at line 103 (camera hardware absent) is outside the model. -/
def captureAndAnalyze (s : AppState) (result : Option ParsedFood) :
    AppState × Bool :=
  match result with
  | some r =>
      ({ s with
           pendingFood := some
             { name := r.name, calories := r.calories, protein := r.protein,
               carbs := r.carbs, fat := r.fat }
           isScanning := false
           isProcessing := false }, false)
  | none => ({ s with isProcessing := false }, true)

/-- `captureAndAnalyze` in src/unnamed/part_000 (lines 107-139): this
variant guards with `if (result && result.name)` — the draft is populated
only when the result exists and its `name` is truthy (present and
non-empty); otherwise `haptic.warning()` and an alert are raised.  The DOM
ref and 2d-context guards are outside the model. -/
def captureAndAnalyzeGuarded (s : AppState) (result : Option ParsedFood) :
    AppState × Bool :=
  match result with
  | some r =>
      if r.name.getD "" = "" then
        ({ s with isProcessing := false }, true)
      else
        ({ s with
             pendingFood := some
               { name := r.name, calories := r.calories, protein := r.protein,
                 carbs := r.carbs, fat := r.fat }
             isScanning := false
             isProcessing := false }, false)
  | none => ({ s with isProcessing := false }, true)

/-- `INITIAL_STATS` (src/App.tsx lines 24-29). -/
def INITIAL_STATS : UserStats :=
  { dailyCalorieGoal := 2400, dailyStepGoal := 10000,
    currentSteps := 7432, waterIntakeOz := 48 }

/-- `INITIAL_FOODS` (src/App.tsx lines 33-36); the `Date.now()`-relative
timestamps are passed in as `now`. -/
def INITIAL_FOODS (now : ℚ) : List FoodEntry :=
  [ { id := "1", name := "Greek Yogurt w/ Berries", calories := 280,
      protein := 22, carbs := 18, fat := 4, timestamp := now - 14400000,
      mealType := MealType.breakfast },
    { id := "2", name := "Black Coffee", calories := 5, protein := 0,
      carbs := 0, fat := 0, timestamp := now - 10800000,
      mealType := MealType.breakfast } ]

/-- The component's initial state (src/App.tsx lines 66-72). -/
def initialState (now : ℚ) : AppState :=
  { activeTab := Tab.health, foods := INITIAL_FOODS now,
    stats := INITIAL_STATS, isScanning := false, isProcessing := false,
    pendingFood := none, isWaterModalOpen := false }

/-- Modelled from the spec: the serving-size variant of the draft is in a
repository variant not under src/ (spec §3: "Optional `servings` multiplier
(default 1, range [0.25, 5] in the variant that supports it)").  It extends
the pending draft with the multiplier. -/
structure ServDraft where
  name : Option String
  calories : Option ℚ
  protein : Option ℚ
  carbs : Option ℚ
  fat : Option ℚ
  servings : ℚ
deriving DecidableEq, Repr

/-- Modelled from the spec: confirmation in the serving-size variant
(spec §4.1: "draft is scaled by `servings` multiplier (each macro value
rounded to nearest integer: `round(value * servings)`)"), combined with the
falsy-field coercions the src/ variants' `finalizeEntry` applies. -/
def confirmServDraft (d : ServDraft) (selectedMealType : MealType)
    (newId : String) (now : ℚ) : FoodEntry :=
  { id := newId
    name := jsOrStr d.name "Unknown Item"
    calories := (round (jsOrNum d.calories 0 * d.servings) : ℤ)
    protein := (round (jsOrNum d.protein 0 * d.servings) : ℤ)
    carbs := (round (jsOrNum d.carbs 0 * d.servings) : ℤ)
    fat := (round (jsOrNum d.fat 0 * d.servings) : ℤ)
    timestamp := now
    mealType := selectedMealType }

/-- Modelled from the spec: the edit-mode draft of the variant not under
src/ (spec §3: "Optional `editingId` back-reference: when present,
confirming the draft replaces the referenced entry in place rather than
inserting a new one; discarding the draft leaves the referenced entry
untouched"). -/
structure EditDraft where
  editingId : String
  name : Option String
  calories : Option ℚ
  protein : Option ℚ
  carbs : Option ℚ
  fat : Option ℚ
deriving DecidableEq, Repr

/-- Modelled from the spec: store plus at-most-one edit-mode draft. -/
structure EditState where
  foods : List FoodEntry
  draft : Option EditDraft
deriving DecidableEq, Repr

/-- Modelled from the spec: selecting an existing entry for edit populates a
draft whose `editingId` back-references the entry (spec §3 PendingDraft
lifecycle (b)). -/
def startEdit (es : EditState) (e : FoodEntry) : EditState :=
  let d : EditDraft :=
    { editingId := e.id, name := some e.name, calories := some e.calories,
      protein := some e.protein, carbs := some e.carbs, fat := some e.fat }
  { es with draft := some d }

/-- Modelled from the spec: confirming an edit-mode draft replaces the
entry referenced by `editingId` in place, preserving that id
(spec §4.1: "written into the Entry Store (… replacing by `id` if
editing)"), with the same falsy-field coercions as `finalizeEntry`. -/
def confirmEdit (es : EditState) (selectedMealType : MealType) (now : ℚ) :
    EditState :=
  match es.draft with
  | none => es
  | some d =>
      let updated : FoodEntry :=
        { id := d.editingId
          name := jsOrStr d.name "Unknown Item"
          calories := jsOrNum d.calories 0
          protein := jsOrNum d.protein 0
          carbs := jsOrNum d.carbs 0
          fat := jsOrNum d.fat 0
          timestamp := now
          mealType := selectedMealType }
      { foods := es.foods.map (fun f => if f.id = d.editingId then updated else f)
        draft := none }

/-- Modelled from the spec: discarding an edit-mode draft drops the draft
with no store mutation (spec §4.1 (b)). -/
def discardEdit (es : EditState) : EditState :=
  { es with draft := none }

/-! ## Helper lemmas -/

lemma totalCaloriesList_eq_sum (l : List FoodEntry) :
    totalCaloriesList l = (l.map FoodEntry.calories).sum := by
  simp [totalCaloriesList, List.sum_eq_foldl, List.foldl_map]

lemma jsOrNum_some_zero (x : ℚ) : jsOrNum (some x) 0 = x := by
  by_cases h : x = 0 <;> simp [jsOrNum, h]

/-! ## Claims -/

/-- C3: for every finite sequence of confirmed entries in the entry store,
`totalCalories` equals the exact sum of the entries' `calories`, and the
value is invariant under every permutation (insertion order) of the
entries. -/
theorem totalCalories_eq_sum_and_perm_invariant (s : AppState) (E' : List FoodEntry) :
    totalCalories s = (s.foods.map FoodEntry.calories).sum ∧
    (s.foods.Perm E' → totalCalories s = totalCaloriesList E') := by
  refine ⟨totalCaloriesList_eq_sum s.foods, fun hperm => ?_⟩
  rw [totalCalories, totalCaloriesList_eq_sum, totalCaloriesList_eq_sum]
  exact (hperm.map FoodEntry.calories).sum_eq

/-- Witness for C3: the initial store summed in reversed insertion order. -/
theorem totalCalories_eq_sum_and_perm_invariant_witness :
    totalCalories (initialState 0) = totalCaloriesList ((INITIAL_FOODS 0).reverse) := by
  refine (totalCalories_eq_sum_and_perm_invariant (initialState 0) ((INITIAL_FOODS 0).reverse)).2 ?_
  exact ((INITIAL_FOODS 0).reverse_perm).symm

/-- C4: with non-negative entry calories and a positive daily goal,
`calorieProgress` equals `min (totalCalories / dailyCalorieGoal) 1` and
lies in `[0, 1]`, clamped at 1 when the goal is exceeded. -/
theorem calorieProgress_clamped (s : AppState)
    (hcal : ∀ f ∈ s.foods, 0 ≤ f.calories)
    (hgoal : 0 < s.stats.dailyCalorieGoal) :
    calorieProgress s = min (totalCalories s / s.stats.dailyCalorieGoal) 1 ∧
    0 ≤ calorieProgress s ∧ calorieProgress s ≤ 1 := by
  refine ⟨rfl, ?_, min_le_right _ _⟩
  have htot : 0 ≤ totalCalories s := by
    rw [totalCalories, totalCaloriesList_eq_sum]
    refine List.sum_nonneg ?_
    intro x hx
    obtain ⟨f, hf, rfl⟩ := List.mem_map.mp hx
    exact hcal f hf
  exact le_min (div_nonneg htot hgoal.le) zero_le_one

/-- Witness for C4: the initial store (280 and 5 kcal entries) against the
2400 kcal goal. -/
theorem calorieProgress_clamped_witness :
    0 ≤ calorieProgress (initialState 0) ∧ calorieProgress (initialState 0) ≤ 1 := by
  have h := calorieProgress_clamped (initialState 0) (by decide) (by decide)
  exact ⟨h.2.1, h.2.2⟩

/-- C7: `logWater` adds the logged amount to the hydration counter, and the
displayed hydration progress equals `min (current / goal) 1`, clamped to at
most 1. -/
theorem logWater_adds_and_progress_clamped (s : AppState) (oz : ℚ) :
    (logWater s oz).stats.waterIntakeOz = s.stats.waterIntakeOz + oz ∧
    waterProgress (logWater s oz) = min ((s.stats.waterIntakeOz + oz) / WATER_GOAL) 1 ∧
    waterProgress (logWater s oz) ≤ 1 := by
  exact ⟨rfl, rfl, min_le_right _ _⟩

/-- C5: discarding or cancelling a pending draft — freshly created by either
capture variant, or an edit-mode draft — is a no-op on the entry store: the
store equals its state from before the draft was created. -/
theorem discard_preserves_store (s : AppState) (r : Option ParsedFood) (es : EditState) :
    (discardDraft s).foods = s.foods ∧
    (discardDraft (captureAndAnalyze s r).1).foods = s.foods ∧
    (discardDraft (captureAndAnalyzeGuarded s r).1).foods = s.foods ∧
    (discardEdit es).foods = es.foods := by
  refine ⟨rfl, ?_, ?_, rfl⟩
  · cases r <;> rfl
  · cases r with
    | none => rfl
    | some p =>
        simp only [captureAndAnalyzeGuarded, discardDraft]
        split <;> rfl

/-- C9: with no pending draft (`pendingFood` is `null`), the confirm
operation is a no-op: entry store, user stats and active tab are unchanged. -/
theorem finalizeEntry_noop_without_draft (s : AppState) (mt : MealType)
    (newId : String) (now : ℚ) (h : s.pendingFood = none) :
    (finalizeEntry s mt newId now).foods = s.foods ∧
    (finalizeEntry s mt newId now).stats = s.stats ∧
    (finalizeEntry s mt newId now).activeTab = s.activeTab := by
  simp [finalizeEntry, h]

/-- Witness for C9: confirming on the initial state, which has no draft. -/
theorem finalizeEntry_noop_without_draft_witness :
    (finalizeEntry (initialState 0) MealType.lunch "abc" 5).foods = (initialState 0).foods :=
  (finalizeEntry_noop_without_draft (initialState 0) MealType.lunch "abc" 5 rfl).1

/-- C10: confirming a pending draft coerces falsy fields to defaults: a
missing or empty name is stored as "Unknown Item" and a missing or
zero-valued macro field is stored as 0; the entry is prepended to the
store. -/
theorem finalizeEntry_defaults (s : AppState) (d : PendingFood) (mt : MealType)
    (newId : String) (now : ℚ) (h : s.pendingFood = some d) :
    ∃ e : FoodEntry, (finalizeEntry s mt newId now).foods = e :: s.foods ∧
      ((d.name = none ∨ d.name = some "") → e.name = "Unknown Item") ∧
      ((d.calories = none ∨ d.calories = some 0) → e.calories = 0) ∧
      ((d.protein = none ∨ d.protein = some 0) → e.protein = 0) ∧
      ((d.carbs = none ∨ d.carbs = some 0) → e.carbs = 0) ∧
      ((d.fat = none ∨ d.fat = some 0) → e.fat = 0) := by
  refine ⟨{ id := newId, name := jsOrStr d.name "Unknown Item",
            calories := jsOrNum d.calories 0, protein := jsOrNum d.protein 0,
            carbs := jsOrNum d.carbs 0, fat := jsOrNum d.fat 0,
            timestamp := now, mealType := mt }, ?_, ?_, ?_, ?_, ?_, ?_⟩
  · simp [finalizeEntry, h]
  · rintro (h1 | h1) <;> simp [jsOrStr, h1]
  · rintro (h1 | h1) <;> simp [jsOrNum, h1]
  · rintro (h1 | h1) <;> simp [jsOrNum, h1]
  · rintro (h1 | h1) <;> simp [jsOrNum, h1]
  · rintro (h1 | h1) <;> simp [jsOrNum, h1]

/-- A state holding an entirely empty pending draft (all fields absent), as
produced by confirming after an empty estimation result. -/
def draftedState : AppState :=
  { initialState 0 with pendingFood := some ⟨none, none, none, none, none⟩ }

/-- Witness for C10: confirming the all-absent draft stores the default
name and zero calories. -/
theorem finalizeEntry_defaults_witness :
    ∃ e : FoodEntry, (finalizeEntry draftedState MealType.snack "z" 7).foods = e :: draftedState.foods ∧
      e.name = "Unknown Item" ∧ e.calories = 0 := by
  obtain ⟨e, h1, h2, h3, -⟩ :=
    finalizeEntry_defaults draftedState ⟨none, none, none, none, none⟩ MealType.snack "z" 7 rfl
  exact ⟨e, h1, h2 (Or.inl rfl), h3 (Or.inl rfl)⟩

/-- C1: in the serving-size variant, confirming a draft with base macro
values and a servings multiplier `s` in `[0.25, 5]` stores each macro value
scaled and rounded to the nearest integer — `round(value * s)` — applied
independently per macro field; with the default `s = 1` the calories are
just rounded. -/
theorem confirmServDraft_scales_rounds (d : ServDraft) (mt : MealType)
    (newId : String) (now : ℚ) (c p cb ft : ℚ)
    (hc : d.calories = some c) (hp : d.protein = some p)
    (hcb : d.carbs = some cb) (hft : d.fat = some ft)
    (hlo : 1/4 ≤ d.servings) (hhi : d.servings ≤ 5) :
    (confirmServDraft d mt newId now).calories = ((round (c * d.servings) : ℤ) : ℚ) ∧
    (confirmServDraft d mt newId now).protein = ((round (p * d.servings) : ℤ) : ℚ) ∧
    (confirmServDraft d mt newId now).carbs = ((round (cb * d.servings) : ℤ) : ℚ) ∧
    (confirmServDraft d mt newId now).fat = ((round (ft * d.servings) : ℤ) : ℚ) ∧
    (d.servings = 1 → (confirmServDraft d mt newId now).calories = ((round c : ℤ) : ℚ)) := by
  refine ⟨by simp [confirmServDraft, hc, jsOrNum_some_zero],
         by simp [confirmServDraft, hp, jsOrNum_some_zero],
         by simp [confirmServDraft, hcb, jsOrNum_some_zero],
         by simp [confirmServDraft, hft, jsOrNum_some_zero],
         fun h1 => by simp [confirmServDraft, hc, jsOrNum_some_zero, h1]⟩

/-- The spec §8 scenario draft: `{calories:200, protein:10}`, `servings=2.5`. -/
def sampleServDraft : ServDraft :=
  { name := some "Paneer Tikka", calories := some 200, protein := some 10,
    carbs := some 0, fat := some 0, servings := 5/2 }

/-- Witness for C1: the spec scenario confirms to 500 kcal and 25 g protein. -/
theorem confirmServDraft_scales_rounds_witness :
    (1 : ℚ)/4 ≤ sampleServDraft.servings ∧ sampleServDraft.servings ≤ 5 ∧
    (confirmServDraft sampleServDraft MealType.lunch "w" 0).calories = 500 ∧
    (confirmServDraft sampleServDraft MealType.lunch "w" 0).protein = 25 := by
  have h := confirmServDraft_scales_rounds sampleServDraft MealType.lunch "w" 0
      200 10 0 0 rfl rfl rfl rfl (by norm_num [sampleServDraft]) (by norm_num [sampleServDraft])
  refine ⟨by norm_num [sampleServDraft], by norm_num [sampleServDraft], ?_, ?_⟩
  · rw [h.1]
    norm_num [sampleServDraft, round_eq]
  · rw [h.2.1]
    norm_num [sampleServDraft, round_eq]

lemma countP_replace (l : List FoodEntry) (tid : String) (u : FoodEntry)
    (hu : u.id = tid) :
    ((l.map (fun f => if f.id = tid then u else f)).countP
        (fun f => decide (f.id = tid)))
      = l.countP (fun f => decide (f.id = tid)) := by
  induction l with
  | nil => rfl
  | cons f t ih =>
      by_cases h : f.id = tid
      · simp [List.countP_cons, h, hu, ih]
      · simp [List.countP_cons, h, ih]

lemma countP_id_eq_one_of_mem_nodup (l : List FoodEntry) (e : FoodEntry)
    (he : e ∈ l) (hnodup : (l.map FoodEntry.id).Nodup) :
    l.countP (fun f => decide (f.id = e.id)) = 1 := by
  induction l with
  | nil => cases he
  | cons f t ih =>
      rw [List.map_cons, List.nodup_cons] at hnodup
      rcases List.mem_cons.mp he with rfl | hmem
      · have ht : t.countP (fun g => decide (g.id = e.id)) = 0 := by
          rw [List.countP_eq_zero]
          intro a ha hpa
          exact hnodup.1 (List.mem_map.mpr ⟨a, ha, by simpa using hpa⟩)
        simp [List.countP_cons, ht]
      · have hne : ¬ (f.id = e.id) := by
          intro hcontra
          apply hnodup.1
          rw [hcontra]
          exact List.mem_map.mpr ⟨e, hmem, rfl⟩
        simp [List.countP_cons, hne, ih hmem hnodup.2]

/-- C6: selecting an entry `e` of the store for edit and confirming the
edited draft yields a store in which the resulting entry keeps `e`'s
original id, exactly one entry with that id exists, and no row was added or
dropped. -/
theorem confirmEdit_preserves_id_unique (es : EditState) (e : FoodEntry)
    (d : EditDraft) (mt : MealType) (now : ℚ)
    (hdraft : es.draft = some d) (hid : d.editingId = e.id)
    (he : e ∈ es.foods)
    (hnodup : (es.foods.map FoodEntry.id).Nodup) :
    ((confirmEdit es mt now).foods.countP (fun f => decide (f.id = e.id)) = 1) ∧
    (∃ f ∈ (confirmEdit es mt now).foods, f.id = e.id) ∧
    ((confirmEdit es mt now).foods.length = es.foods.length) := by
  have key : (confirmEdit es mt now).foods =
      es.foods.map (fun f => if f.id = d.editingId then
        ({ id := d.editingId, name := jsOrStr d.name "Unknown Item",
           calories := jsOrNum d.calories 0, protein := jsOrNum d.protein 0,
           carbs := jsOrNum d.carbs 0, fat := jsOrNum d.fat 0,
           timestamp := now, mealType := mt } : FoodEntry) else f) := by
    simp [confirmEdit, hdraft]
  rw [key]
  refine ⟨?_, ?_, by simp⟩
  · rw [← hid, countP_replace es.foods d.editingId _ rfl, hid]
    exact countP_id_eq_one_of_mem_nodup es.foods e he hnodup
  · exact ⟨_, List.mem_map.mpr ⟨e, he, rfl⟩, by simp [hid]⟩

/-- The first `INITIAL_FOODS` entry (at `now = 0`). -/
def yogurtEntry : FoodEntry :=
  { id := "1", name := "Greek Yogurt w/ Berries", calories := 280, protein := 22,
    carbs := 18, fat := 4, timestamp := 0 - 14400000,
    mealType := MealType.breakfast }

/-- An edited draft back-referencing entry "1". -/
def sampleEditDraft : EditDraft :=
  { editingId := "1", name := some "Greek Yogurt", calories := some 300,
    protein := some 24, carbs := some 20, fat := some 5 }

/-- Witness for C6: editing entry "1" of the initial store and confirming
leaves exactly one entry with id "1". -/
theorem confirmEdit_preserves_id_unique_witness :
    (confirmEdit { foods := INITIAL_FOODS 0, draft := some sampleEditDraft }
        MealType.breakfast 0).foods.countP
      (fun f => decide (f.id = yogurtEntry.id)) = 1 :=
  (confirmEdit_preserves_id_unique
      { foods := INITIAL_FOODS 0, draft := some sampleEditDraft }
      yogurtEntry sampleEditDraft MealType.breakfast 0 rfl rfl
      (List.mem_cons_self _ _) (by decide)).1

/-- Counterexample for C2: in the src/App.tsx variant, an estimation call
that succeeds with an empty response text yields the `{}` object, which is
truthy, so a pending draft is populated even though the result has no
name. -/
theorem captureAndAnalyze_empty_result_creates_draft :
    analyzeFoodImage (Except.ok none) = some emptyParsed ∧
    emptyParsed.name = none ∧
    (captureAndAnalyze (initialState 0) (analyzeFoodImage (Except.ok none))).1.pendingFood ≠ none := by
  refine ⟨rfl, rfl, ?_⟩
  simp [captureAndAnalyze, analyzeFoodImage]

/-- C2 (amended): a null (error) result creates no draft in either variant —
the store is unchanged, the flow stays on the capture view and failure is
signalled; the guarded variant (src/unnamed/part_000) populates a draft
exactly when the result is non-null with a non-empty name, while the plain
variant (src/App.tsx) populates a draft for every non-null result, even one
with a missing or empty name. -/
theorem captureAndAnalyze_outcomes (s : AppState) (r : Option ParsedFood) :
    (r = none →
      (captureAndAnalyze s r).1.pendingFood = s.pendingFood ∧
      (captureAndAnalyze s r).1.foods = s.foods ∧
      (captureAndAnalyze s r).1.isScanning = s.isScanning ∧
      (captureAndAnalyze s r).1.activeTab = s.activeTab ∧
      (captureAndAnalyze s r).2 = true ∧
      (captureAndAnalyzeGuarded s r).1.pendingFood = s.pendingFood ∧
      (captureAndAnalyzeGuarded s r).1.foods = s.foods ∧
      (captureAndAnalyzeGuarded s r).1.isScanning = s.isScanning ∧
      (captureAndAnalyzeGuarded s r).1.activeTab = s.activeTab ∧
      (captureAndAnalyzeGuarded s r).2 = true) ∧
    (∀ p, r = some p → p.name.getD "" = "" →
      (captureAndAnalyzeGuarded s r).1.pendingFood = s.pendingFood ∧
      (captureAndAnalyzeGuarded s r).1.foods = s.foods ∧
      (captureAndAnalyzeGuarded s r).1.isScanning = s.isScanning ∧
      (captureAndAnalyzeGuarded s r).1.activeTab = s.activeTab ∧
      (captureAndAnalyzeGuarded s r).2 = true) ∧
    (∀ p, r = some p → p.name.getD "" ≠ "" →
      (captureAndAnalyzeGuarded s r).1.pendingFood =
        some ⟨p.name, p.calories, p.protein, p.carbs, p.fat⟩ ∧
      (captureAndAnalyzeGuarded s r).1.foods = s.foods) ∧
    (∀ p, r = some p →
      (captureAndAnalyze s r).1.pendingFood =
        some ⟨p.name, p.calories, p.protein, p.carbs, p.fat⟩ ∧
      (captureAndAnalyze s r).1.foods = s.foods) := by
  refine ⟨?_, ?_, ?_, ?_⟩
  · rintro rfl
    refine ⟨rfl, rfl, rfl, rfl, rfl, rfl, rfl, rfl, rfl, rfl⟩
  · rintro p rfl hname
    simp [captureAndAnalyzeGuarded, hname]
  · rintro p rfl hname
    simp [captureAndAnalyzeGuarded, hname]
  · rintro p rfl
    simp [captureAndAnalyze]

/-- Witness for C2 (amended): a null result on the initial state leaves the
store unchanged and signals failure in both variants. -/
theorem captureAndAnalyze_outcomes_witness :
    (captureAndAnalyze (initialState 0) none).1.foods = (initialState 0).foods ∧
    (captureAndAnalyze (initialState 0) none).2 = true ∧
    (captureAndAnalyzeGuarded (initialState 0) none).2 = true := by
  have h := (captureAndAnalyze_outcomes (initialState 0) none).1 rfl
  exact ⟨h.2.1, h.2.2.2.2.1, h.2.2.2.2.2.2.2.2.2⟩

/-- A state of the initial store plus a pending draft, ready to confirm. -/
def collidingState : AppState :=
  { initialState 0 with
      pendingFood := some ⟨some "Dup", some 100, some 1, some 1, some 1⟩ }

/-- Counterexample for C8: `finalizeEntry` performs no uniqueness check on
the externally generated id — confirming with the token "1", which already
identifies a stored entry, leaves the store with a duplicated id. -/
theorem finalizeEntry_id_collision_duplicate :
    ¬ (((finalizeEntry collidingState MealType.snack "1" 0).foods.map FoodEntry.id).Nodup) := by
  have h : ((finalizeEntry collidingState MealType.snack "1" 0).foods.map FoodEntry.id)
      = ["1", "1", "2"] := rfl
  rw [h]
  decide

/-- C8 (amended): `finalizeEntry` stores the externally generated id
unchanged and unchecked; whenever that id differs from every id already in
the store and the store's ids are pairwise distinct, the new store's ids
remain pairwise distinct. -/
theorem finalizeEntry_nodup_ids_preserved (s : AppState) (d : PendingFood)
    (mt : MealType) (newId : String) (now : ℚ)
    (h : s.pendingFood = some d)
    (hfresh : newId ∉ s.foods.map FoodEntry.id)
    (hnodup : (s.foods.map FoodEntry.id).Nodup) :
    ((finalizeEntry s mt newId now).foods.map FoodEntry.id
        = newId :: s.foods.map FoodEntry.id) ∧
    ((finalizeEntry s mt newId now).foods.map FoodEntry.id).Nodup := by
  have hfoods : (finalizeEntry s mt newId now).foods.map FoodEntry.id
      = newId :: s.foods.map FoodEntry.id := by
    simp [finalizeEntry, h]
  exact ⟨hfoods, by rw [hfoods]; exact List.nodup_cons.mpr ⟨hfresh, hnodup⟩⟩

/-- Witness for C8 (amended): confirming with the fresh token "9" keeps the
ids pairwise distinct. -/
theorem finalizeEntry_nodup_ids_preserved_witness :
    (((finalizeEntry collidingState MealType.snack "9" 0).foods.map FoodEntry.id)).Nodup :=
  (finalizeEntry_nodup_ids_preserved collidingState
      ⟨some "Dup", some 100, some 1, some 1, some 1⟩ MealType.snack "9" 0
      rfl (by decide) (by decide)).2
